import Mathlib

/-!
Shallow embedding of `sprytile_modal.py` (Sprytile tile-painting tool core)
and verification of the frozen specification claims about it.

Modelling conventions:
* Python floats are embedded as exact rationals (`ℚ`).
* `mathutils.Vector` becomes the `Vec3` structure below, with componentwise
  arithmetic and the usual dot/cross products.
* `Vector.normalized()` divides by the Euclidean magnitude.  Over `ℚ` the
  magnitude is embedded through `ratSqrt`, which is exact whenever the squared
  magnitude is a perfect rational square (in particular on every axis-aligned
  unit vector and on every concrete input used below).  Every statement proved
  about arbitrary vectors only depends on the normalized vector through signs
  or through comparisons that share the positive factor `1/magnitude`, so the
  embedding decides those comparisons exactly as the source does.
* Fallible operations return `Option`; a Python exception is `none` at the
  point where the caller would raise.
-/

/-- Rational square root: exact on squares of rationals, and positive on
positive input, which is all the development relies on.  Mirrors the shape of
the numerator/denominator square root used for rationals in Mathlib. -/
def ratSqrt (q : ℚ) : ℚ :=
  (Int.sqrt q.num : ℚ) / (Nat.sqrt q.den : ℚ)

/-- `mathutils.Vector` with three components, embedded over `ℚ`. -/
@[ext]
structure Vec3 where
  x : ℚ
  y : ℚ
  z : ℚ
deriving DecidableEq, Repr

namespace Vec3

instance : Zero Vec3 := ⟨⟨0, 0, 0⟩⟩

instance : Add Vec3 := ⟨fun a b => ⟨a.x + b.x, a.y + b.y, a.z + b.z⟩⟩

instance : Neg Vec3 := ⟨fun a => ⟨-a.x, -a.y, -a.z⟩⟩

instance : Sub Vec3 := ⟨fun a b => ⟨a.x - b.x, a.y - b.y, a.z - b.z⟩⟩

instance : SMul ℚ Vec3 := ⟨fun s a => ⟨s * a.x, s * a.y, s * a.z⟩⟩

/-- Dot product of two vectors. -/
def dot (a b : Vec3) : ℚ :=
  a.x * b.x + a.y * b.y + a.z * b.z

/-- Cross product of two vectors. -/
def cross (a b : Vec3) : Vec3 :=
  ⟨a.y * b.z - a.z * b.y, a.z * b.x - a.x * b.z, a.x * b.y - a.y * b.x⟩

/-- Euclidean magnitude (see the `ratSqrt` caveat in the header). -/
def magnitude (v : Vec3) : ℚ :=
  ratSqrt (v.dot v)

/-- `Vector.normalized()`: divide by the magnitude.  The zero vector maps to
the zero vector (in `ℚ`, `1 / 0 = 0`, which matches mathutils returning the
zero vector unchanged). -/
def normalized (v : Vec3) : Vec3 :=
  (1 / v.magnitude) • v

end Vec3

/-- Row-major 3x3 matrix (the rotation/scale block of a Blender
`object.matrix_world`). -/
structure Mat3 where
  r0 : Vec3
  r1 : Vec3
  r2 : Vec3
deriving DecidableEq, Repr

namespace Mat3

/-- Matrix-vector product. -/
def mulVec (m : Mat3) (v : Vec3) : Vec3 :=
  ⟨m.r0.dot v, m.r1.dot v, m.r2.dot v⟩

/-- Determinant. -/
def det (m : Mat3) : ℚ :=
  m.r0.x * (m.r1.y * m.r2.z - m.r1.z * m.r2.y)
    - m.r0.y * (m.r1.x * m.r2.z - m.r1.z * m.r2.x)
    + m.r0.z * (m.r1.x * m.r2.y - m.r1.y * m.r2.x)

/-- Inverse by adjugate over determinant (the formula Blender uses for
`Matrix.inverted()`; meaningful for invertible matrices, which is the only
case the tool encounters). -/
def inv (m : Mat3) : Mat3 :=
  let d := m.det
  ⟨⟨(m.r1.y * m.r2.z - m.r1.z * m.r2.y) / d,
    (m.r0.z * m.r2.y - m.r0.y * m.r2.z) / d,
    (m.r0.y * m.r1.z - m.r0.z * m.r1.y) / d⟩,
   ⟨(m.r1.z * m.r2.x - m.r1.x * m.r2.z) / d,
    (m.r0.x * m.r2.z - m.r0.z * m.r2.x) / d,
    (m.r0.z * m.r1.x - m.r0.x * m.r1.z) / d⟩,
   ⟨(m.r1.x * m.r2.y - m.r1.y * m.r2.x) / d,
    (m.r0.y * m.r2.x - m.r0.x * m.r2.y) / d,
    (m.r0.x * m.r1.y - m.r0.y * m.r1.x) / d⟩⟩

/-- Identity matrix. -/
def id3 : Mat3 :=
  ⟨⟨1, 0, 0⟩, ⟨0, 1, 0⟩, ⟨0, 0, 1⟩⟩

end Mat3

/-- Affine transform: the usable content of a Blender 4x4 `matrix_world`
(linear block plus translation). -/
structure Affine where
  linear : Mat3
  translation : Vec3
deriving DecidableEq, Repr

namespace Affine

/-- Apply the transform to a point (`matrix * vector` in mathutils, which
treats a 3-vector as a point with homogeneous coordinate 1). -/
def apply (a : Affine) (v : Vec3) : Vec3 :=
  a.linear.mulVec v + a.translation

/-- `Matrix.inverted()` restricted to affine transforms. -/
def inverted (a : Affine) : Affine :=
  ⟨a.linear.inv, -(a.linear.inv.mulVec a.translation)⟩

/-- Identity transform. -/
def idAffine : Affine :=
  ⟨Mat3.id3, 0⟩

end Affine

/-!  ## Pure geometry helpers (module-level functions of the source)  -/

/-- `get_grid_pos(position, grid_center, right_vector, up_vector,
world_pixels, grid_x, grid_y)` from the source: snap a world point to the
virtual grid.  Returns `(grid_pos, right_vector, up_vector)` with the basis
vectors re-signed toward the (normalized) sample position and scaled to one
cell.  `math.floor` becomes `Int.floor` over `ℚ`. -/
def get_grid_pos (position grid_center right_vector up_vector : Vec3)
    (world_pixels grid_x grid_y : ℚ) : Vec3 × Vec3 × Vec3 :=
  let position_vector := position - grid_center
  let pos_vector_normalized := position.normalized
  let right_vector :=
    if right_vector.dot pos_vector_normalized < 0 then -right_vector else right_vector
  let up_vector :=
    if up_vector.dot pos_vector_normalized < 0 then -up_vector else up_vector
  let x_magnitude := position_vector.dot right_vector
  let y_magnitude := position_vector.dot up_vector
  let x_unit := grid_x / world_pixels
  let y_unit := grid_y / world_pixels
  let x_snap : ℤ := ⌊x_magnitude / x_unit⌋
  let y_snap : ℤ := ⌊y_magnitude / y_unit⌋
  let right_vector := x_unit • right_vector
  let up_vector := y_unit • up_vector
  let grid_pos := grid_center + (x_snap : ℚ) • right_vector + (y_snap : ℚ) • up_vector
  (grid_pos, right_vector, up_vector)

/-- `snap_vector_to_axis(vector, mirrored)`: snap a vector to the closest
world axis.  Python's `min` returns the first minimal element of
`[x_dot, y_dot, z_dot]` and the subsequent `is` identity tests compare
against exactly that object, so the selection is the first minimum in
X, Y, Z order, embedded here as the two nested comparisons. -/
def snap_vector_to_axis (vector : Vec3) (mirrored : Bool) : Vec3 :=
  let norm_vector := vector.normalized
  let x : Vec3 := ⟨1, 0, 0⟩
  let y : Vec3 := ⟨0, 1, 0⟩
  let z : Vec3 := ⟨0, 0, 1⟩
  let x_dot := 1 - |norm_vector.dot x|
  let y_dot := 1 - |norm_vector.dot y|
  let z_dot := 1 - |norm_vector.dot z|
  let snapped_vector :=
    if x_dot ≤ y_dot ∧ x_dot ≤ z_dot then x
    else if y_dot ≤ z_dot then y
    else z
  let vector_dot := norm_vector.dot snapped_vector
  if mirrored = false ∧ vector_dot < 0 then -snapped_vector
  else if mirrored = true ∧ vector_dot > 0 then -snapped_vector
  else snapped_vector

/-- `mathutils.geometry.intersect_line_plane(p1, p2, plane_co, plane_no)`:
intersection of the (two-sided, infinite) line through `p1` and `p2` with a
plane; `none` when the line is parallel to the plane. -/
def intersect_line_plane (p1 p2 plane_co plane_no : Vec3) : Option Vec3 :=
  let u := p2 - p1
  let d := plane_no.dot u
  if d = 0 then none
  else some (p1 + ((plane_no.dot (plane_co - p1)) / d) • u)

/-- `mathutils.geometry.distance_point_to_plane(pt, plane_co, plane_no)`:
signed perpendicular distance from `pt` to the plane through `plane_co` with
normal `plane_no`. -/
def distance_point_to_plane (pt plane_co plane_no : Vec3) : ℚ :=
  ((pt - plane_co).dot plane_no) / plane_no.magnitude

/-!  ## Scene / grid data (the external records the tool reads)  -/

/-- A texture image: the only data the core reads is its pixel size. -/
structure Texture where
  size_x : ℚ
  size_y : ℚ
deriving DecidableEq, Repr

/-- One entry of `scene.sprytile_grids`. -/
structure TileGrid where
  grid_x : ℚ
  grid_y : ℚ
  tile_selection_x : ℚ
  tile_selection_y : ℚ
  mat_id : String
  texture : Option Texture
deriving DecidableEq, Repr

/-- Fallback value for out-of-range grid lookups (the Python source indexes
unconditionally; every verified scenario stays in range). -/
def defaultGrid : TileGrid :=
  ⟨0, 0, 0, 0, "", none⟩

/-- Modelled from the spec: `sprytile_utils.get_grid_texture` lives in the
`sprytile_utils` module, which is not part of the given sources.  Per the
spec a grid carries a texture reference that may fail to resolve
("MissingTextureReference (grid has no resolvable texture)"), so the lookup
is the stored optional texture. -/
def get_grid_texture (grid : TileGrid) : Option Texture :=
  grid.texture

/-- The `scene.sprytile_data` record fields this core reads. -/
structure SprytileData where
  world_pixels : ℚ
  paint_normal_vector : Vec3
  paint_up_vector : Vec3
  cursor_flow : Bool
deriving DecidableEq, Repr

/-- The scene state this core reads and writes. -/
structure Scene where
  cursor_location : Vec3
  sprytile_data : SprytileData
  sprytile_grids : List TileGrid
deriving DecidableEq, Repr

/-- `raycast_grid(scene, grid_id, up_vector, right_vector, plane_normal,
ray_origin, ray_vector)`: intersect the pointer ray with the painting plane
through the scene cursor, then snap to the grid.  The Python function returns
a tuple of four `None`s on a plane miss, embedded as `none`. -/
def raycast_grid (scene : Scene) (grid_id : Nat)
    (up_vector right_vector plane_normal ray_origin ray_vector : Vec3) :
    Option (Vec3 × Vec3 × Vec3 × Vec3) :=
  match intersect_line_plane ray_origin (ray_origin + ray_vector)
      scene.cursor_location plane_normal with
  | none => none
  | some plane_pos =>
    let world_pixels := scene.sprytile_data.world_pixels
    let target_grid := scene.sprytile_grids.getD grid_id defaultGrid
    let grid_x := target_grid.grid_x
    let grid_y := target_grid.grid_y
    let r := get_grid_pos plane_pos scene.cursor_location
      right_vector up_vector world_pixels grid_x grid_y
    some (r.1, r.2.1, r.2.2, plane_pos)

/-- `get_current_grid_vectors(scene)`: normalize the stored paint normal/up
and derive the right vector by cross product.  Returns
`(up_vector, right_vector, normal_vector)`. -/
def get_current_grid_vectors (scene : Scene) : Vec3 × Vec3 × Vec3 :=
  let normal_vector := scene.sprytile_data.paint_normal_vector.normalized
  let up_vector := scene.sprytile_data.paint_up_vector.normalized
  let right_vector := up_vector.cross normal_vector
  (up_vector, right_vector, normal_vector)

/-!  ## Mesh model (the bmesh data the tool mutates)  -/

/-- One loop of a face: a vertex index plus the per-loop UV coordinate.  The
UV layer is taken as present (the source calls `verify()` on it before any
use). -/
structure Loop where
  vert : Nat
  uv : ℚ × ℚ
deriving DecidableEq, Repr

/-- A mesh face: an ordered loop cycle plus a material index. -/
structure Face where
  loops : List Loop
  material_index : Int
deriving DecidableEq, Repr

/-- Fallback for out-of-range face lookups (the source only indexes faces it
has just checked or created). -/
def defaultFace : Face :=
  ⟨[], 0⟩

/-- The bmesh data accessed by the tool: indexed vertices and faces. -/
structure BMesh where
  verts : List Vec3
  faces : List Face
deriving DecidableEq, Repr

/-- A BVH ray-cast result: `(location, normal, face_index, distance)`, all in
object-local space. -/
structure RayHit where
  location : Vec3
  normal : Vec3
  face_index : Nat
  distance : ℚ
deriving DecidableEq, Repr

/-- `uv_map_face(context, up_vector, right_vector, tile_xy, face_index,
mesh)`: project one face into tile-atlas UV space.  Returns the updated mesh
together with `some (face.index, target_grid)`, or the untouched mesh and
`none` where the Python function falls off one of its early `return`
statements (out-of-range face index, unresolvable texture).
`face.calc_center_median()` is the mean of the face's vertex coordinates. -/
def uv_map_face (scene : Scene) (grid_id : Nat) (up_vector right_vector : Vec3)
    (tile_xy : ℚ × ℚ) (face_index : Nat) (mesh : BMesh) :
    BMesh × Option (Nat × TileGrid) :=
  let target_grid := scene.sprytile_grids.getD grid_id defaultGrid
  let world_units := scene.sprytile_data.world_pixels
  let world_convert : ℚ × ℚ :=
    (target_grid.grid_x / world_units, target_grid.grid_y / world_units)
  if face_index ≥ mesh.faces.length then (mesh, none)
  else
    match get_grid_texture target_grid with
    | none => (mesh, none)
    | some target_img =>
      let pixel_uv_x := 1 / target_img.size_x
      let pixel_uv_y := 1 / target_img.size_y
      let uv_unit_x := pixel_uv_x * target_grid.grid_x
      let uv_unit_y := pixel_uv_y * target_grid.grid_y
      let face := mesh.faces.getD face_index defaultFace
      let face_verts := face.loops.map (fun l => mesh.verts.getD l.vert 0)
      let vert_origin :=
        (1 / (face_verts.length : ℚ)) • face_verts.foldl (· + ·) 0
      let new_loops := face.loops.map (fun l =>
        let vert_pos := mesh.verts.getD l.vert 0 - vert_origin
        let vert_x := right_vector.dot vert_pos / world_convert.1
        let vert_y := up_vector.dot vert_pos / world_convert.2
        let u := (vert_x + 1 / 2) * uv_unit_x + uv_unit_x * tile_xy.1
        let v := (vert_y + 1 / 2) * uv_unit_y + uv_unit_y * tile_xy.2
        { l with uv := (u, v) })
      ({ mesh with
          faces := mesh.faces.set face_index { face with loops := new_loops } },
        some (face_index, target_grid))

/-!  ## The modal tool state and its operations  -/

/-- The mutable state of `SprytileModalTool` plus the external context it
reads: the scene, the active object's world transform and grid id, the edit
mesh, the BVH tree (an abstract ray oracle in object-local space), the BVH
builder used after geometry changes, the virtual-cursor history and the
material name table (`bpy.data.materials`). -/
structure ToolState where
  scene : Scene
  matrix_world : Affine
  gridid : Nat
  bmesh : BMesh
  tree : Vec3 → Vec3 → Option RayHit
  fromBMesh : BMesh → Vec3 → Vec3 → Option RayHit
  virtual_cursor : List Vec3
  materials : List String

/-- `collections.deque(maxlen=3)` append: push on the right, evicting from
the left once the length would exceed three. -/
def dequeAppend (history : List Vec3) (pos : Vec3) : List Vec3 :=
  let history := history ++ [pos]
  if 3 < history.length then history.drop (history.length - 3) else history

/-- `get_virtual_cursor_vector(self)`: sum the consecutive-entry segments of
the history and divide by the history length (note: the length, not the
number of segments). -/
def get_virtual_cursor_vector (virtual_cursor : List Vec3) : Vec3 :=
  let cursor_len := virtual_cursor.length
  if cursor_len ≤ 1 then 0
  else
    let segments := (virtual_cursor.tail.zip virtual_cursor).map fun p => p.1 - p.2
    let cursor_direction := segments.foldl (· + ·) 0
    (1 / (cursor_len : ℚ)) • cursor_direction

/-- `add_virtual_cursor(self, cursor_pos)`: push a sample, ignoring
sub-threshold motion and clearing the history on direction reversal.
`last_vector.magnitude < 0.1` is embedded verbatim through `magnitude`. -/
def add_virtual_cursor (virtual_cursor : List Vec3) (cursor_pos : Vec3) :
    List Vec3 :=
  let cursor_len := virtual_cursor.length
  if cursor_len = 0 then dequeAppend virtual_cursor cursor_pos
  else
    let last_pos := virtual_cursor.getD (cursor_len - 1) 0
    let last_vector := cursor_pos - last_pos
    if last_vector.magnitude < 1 / 10 then virtual_cursor
    else
      let cursor_vector := get_virtual_cursor_vector virtual_cursor
      let virtual_cursor :=
        if cursor_vector.dot last_vector < 0 then [] else virtual_cursor
      dequeAppend virtual_cursor cursor_pos

/-- `flow_cursor(self, context, face_index, virtual_cursor)`: pick a vertex
of the face along the averaged travel direction and return the new cursor
location (`none` when nothing is selected).  The accumulator deliberately
mirrors the source: `max_dot` starts at `1.0` and is never updated inside
the loop, so each vertex scoring below `1` overwrites the previous choice. -/
def flow_cursor (matrix_world : Affine) (bm : BMesh) (face_index : Nat)
    (virtual_cursor_history : List Vec3) (virtual_cursor : Vec3) : Option Vec3 :=
  if virtual_cursor_history.length ≤ 1 then none
  else
    let cursor_direction := (get_virtual_cursor_vector virtual_cursor_history).normalized
    let face := bm.faces.getD face_index defaultFace
    let start : ℚ × Int × Vec3 := (1, -1, 0)
    let result := face.loops.enum.foldl (fun acc p =>
      let vert_co := bm.verts.getD p.2.vert 0
      let vert_world_pos := matrix_world.apply vert_co
      let vert_vector := (vert_world_pos - virtual_cursor).normalized
      let vert_dot := |1 - vert_vector.dot cursor_direction|
      if vert_dot < acc.1 then (acc.1, (p.1 : Int), vert_world_pos) else acc)
      start
    if result.2.1 ≠ -1 then some result.2.2 else none

/-- `raycast_object(self, obj, ray_origin, ray_direction)`: transform the ray
into object space, query the BVH tree, and transform only the hit location
back to world space. -/
def raycast_object (matrix : Affine) (tree : Vec3 → Vec3 → Option RayHit)
    (ray_origin ray_direction : Vec3) : Option RayHit :=
  let matrix_inv := matrix.inverted
  let ray_origin_obj := matrix_inv.apply ray_origin
  let ray_target_obj := matrix_inv.apply (ray_origin + ray_direction)
  let ray_direction_obj := ray_target_obj - ray_origin_obj
  match tree ray_origin_obj ray_direction_obj with
  | none => none
  | some hit => some { hit with location := matrix.apply hit.location }

/-- `build_face(self, context, position, x_vector, y_vector, up_vector,
right_vector)`: append four vertices and one quad face, choosing the winding
by the sign agreement of the cell edges with the painting basis.  Returns the
new mesh and the new face's index. -/
def build_face (matrix_world : Affine) (bm : BMesh)
    (position x_vector y_vector up_vector right_vector : Vec3) : BMesh × Nat :=
  let face_position := matrix_world.inverted.apply position
  let x_dot := right_vector.dot x_vector.normalized
  let y_dot := up_vector.dot y_vector.normalized
  let x_positive : Bool := decide (x_dot > 0)
  let y_positive : Bool := decide (y_dot > 0)
  let vtx1 := bm.verts.length
  let vtx2 := bm.verts.length + 1
  let vtx3 := bm.verts.length + 2
  let vtx4 := bm.verts.length + 3
  let verts := bm.verts ++
    [face_position, face_position + y_vector,
     face_position + x_vector + y_vector, face_position + x_vector]
  let face_order := if x_positive = y_positive
    then [vtx1, vtx4, vtx3, vtx2]
    else [vtx1, vtx2, vtx3, vtx4]
  let face : Face := ⟨face_order.map (fun i => ⟨i, (0, 0)⟩), 0⟩
  (⟨verts, bm.faces ++ [face]⟩, bm.faces.length)

/-- `execute_paint(self, context, ray_origin, ray_vector)`: paint-mode event.
Returns `none` exactly where the Python code raises: when `uv_map_face`
returns `None` and the assignment `face_index, grid = uv_map_face(...)`
attempts to unpack it (a `TypeError`). -/
def execute_paint (s : ToolState) (ray_origin ray_vector : Vec3) :
    Option ToolState :=
  let gcv := get_current_grid_vectors s.scene
  match raycast_object s.matrix_world s.tree ray_origin ray_vector with
  | none => some s
  | some hit =>
    let s1 := { s with virtual_cursor := add_virtual_cursor s.virtual_cursor hit.location }
    let grid := s.scene.sprytile_grids.getD s.gridid defaultGrid
    let tile_xy := (grid.tile_selection_x, grid.tile_selection_y)
    let r := uv_map_face s1.scene s1.gridid gcv.1 gcv.2.1 tile_xy hit.face_index s1.bmesh
    let s2 := { s1 with bmesh := r.1 }
    match r.2 with
    | none => none
    | some (face_index, grid) =>
      let mat_id : Int :=
        match s2.materials.indexOf? grid.mat_id with
        | some i => (i : Int)
        | none => -1
      if mat_id > -1 then
        let face := s2.bmesh.faces.getD face_index defaultFace
        some { s2 with bmesh :=
          { s2.bmesh with faces :=
              s2.bmesh.faces.set face_index { face with material_index := mat_id } } }
      else some s2

/-- The shared tail of `execute_build`: intersect the ray with the grid
plane, synthesize a new face there, UV-map it and optionally flow the
cursor. -/
def execute_build_makeface (s : ToolState) (tile_xy : ℚ × ℚ)
    (up_vector right_vector plane_normal ray_origin ray_vector : Vec3) :
    ToolState :=
  match raycast_grid s.scene s.gridid up_vector right_vector plane_normal
      ray_origin ray_vector with
  | none => s
  | some (face_position, x_vector, y_vector, plane_cursor) =>
    let s1 := { s with virtual_cursor := add_virtual_cursor s.virtual_cursor plane_cursor }
    let bf := build_face s1.matrix_world s1.bmesh face_position x_vector y_vector
      up_vector right_vector
    let s2 := { s1 with bmesh := bf.1, tree := s1.fromBMesh bf.1 }
    let face_index := bf.2
    let s3 := { s2 with bmesh :=
      (uv_map_face s2.scene s2.gridid up_vector right_vector tile_xy face_index
        s2.bmesh).1 }
    if s3.scene.sprytile_data.cursor_flow then
      match flow_cursor s3.matrix_world s3.bmesh face_index s3.virtual_cursor
          plane_cursor with
      | some pos =>
        { s3 with scene := { s3.scene with cursor_location := pos } }
      | none => s3
    else s3

/-- `execute_build(self, context, scene, ray_origin, ray_vector)`: build-mode
event.  A mesh hit whose face passes the alignment and coplanarity checks is
re-UV-mapped in place; otherwise a new face is synthesized on the grid
plane. -/
def execute_build (s : ToolState) (ray_origin ray_vector : Vec3) : ToolState :=
  let grid := s.scene.sprytile_grids.getD s.gridid defaultGrid
  let tile_xy := (grid.tile_selection_x, grid.tile_selection_y)
  let gcv := get_current_grid_vectors s.scene
  let up_vector := gcv.1
  let right_vector := gcv.2.1
  let plane_normal := gcv.2.2
  match raycast_object s.matrix_world s.tree ray_origin ray_vector with
  | some hit =>
    let check_dot := plane_normal.dot hit.normal - 1
    let check_coplanar :=
      distance_point_to_plane hit.location s.scene.cursor_location plane_normal
    if |check_dot| < 1 / 20 ∧ |check_coplanar| < 1 / 20 then
      let s1 := { s with virtual_cursor := add_virtual_cursor s.virtual_cursor hit.location }
      let s2 := { s1 with bmesh :=
        (uv_map_face s1.scene s1.gridid up_vector right_vector tile_xy
          hit.face_index s1.bmesh).1 }
      if s2.scene.sprytile_data.cursor_flow then
        match flow_cursor s2.matrix_world s2.bmesh hit.face_index
            s2.virtual_cursor hit.location with
        | some pos =>
          { s2 with scene := { s2.scene with cursor_location := pos } }
        | none => s2
      else s2
    else
      execute_build_makeface s tile_xy up_vector right_vector plane_normal
        ray_origin ray_vector
  | none =>
    execute_build_makeface s tile_xy up_vector right_vector plane_normal
      ray_origin ray_vector

/-!  ## Concrete fixtures used by the claim verdicts  -/

/-- Build/paint settings: 32 world pixels per unit, painting plane normal
`+Z`, up `+Y`, cursor flow off. -/
def paintData : SprytileData :=
  ⟨32, ⟨0, 0, 1⟩, ⟨0, 1, 0⟩, false⟩

/-- A 32x32-pixel grid on a 256x256 texture with tile (2,1) selected. -/
def texGrid : TileGrid :=
  ⟨32, 32, 2, 1, "m", some ⟨256, 256⟩⟩

/-- The same grid with an unresolvable texture reference. -/
def noTexGrid : TileGrid :=
  ⟨32, 32, 2, 1, "m", none⟩

/-- A scene with the cursor at the origin and the textured grid active. -/
def baseScene : Scene :=
  ⟨⟨0, 0, 0⟩, paintData, [texGrid]⟩

/-- The same scene with the texture-less grid active. -/
def noTexScene : Scene :=
  ⟨⟨0, 0, 0⟩, paintData, [noTexGrid]⟩

/-- A mesh holding one unit quad around the origin in the `z = 0` plane. -/
def quadMesh : BMesh :=
  ⟨[⟨1, 1, 0⟩, ⟨-1, 1, 0⟩, ⟨-1, -1, 0⟩, ⟨1, -1, 0⟩],
   [⟨[⟨0, (0, 0)⟩, ⟨1, (0, 0)⟩, ⟨2, (0, 0)⟩, ⟨3, (0, 0)⟩], 0⟩]⟩

/-- A five-loop face whose fifth vertex sits exactly at the face centroid. -/
def centroidMesh : BMesh :=
  ⟨[⟨1, 1, 0⟩, ⟨-1, 1, 0⟩, ⟨-1, -1, 0⟩, ⟨1, -1, 0⟩, ⟨0, 0, 0⟩],
   [⟨[⟨0, (0, 0)⟩, ⟨1, (0, 0)⟩, ⟨2, (0, 0)⟩, ⟨3, (0, 0)⟩, ⟨4, (0, 0)⟩], 0⟩]⟩

/-- A two-vertex face used to exhibit the `flow_cursor` selection slip:
vertex 0 lies exactly along the travel direction (score `0`), vertex 1 lies
off it (score `2/5`). -/
def flowMesh : BMesh :=
  ⟨[⟨1, 0, 0⟩, ⟨3, 4, 0⟩], [⟨[⟨0, (0, 0)⟩, ⟨1, (0, 0)⟩], 0⟩]⟩

/-- A BVH hit on face 0 at `(1,0,0)` whose local normal `(0,0,-1)` is exactly
opposite the painting plane normal `(0,0,1)`. -/
def oppositeHit : RayHit :=
  ⟨⟨1, 0, 0⟩, ⟨0, 0, -1⟩, 0, 1⟩

/-- A BVH hit on face 0 at `(1,0,0)` whose local normal `(0,0,1)` is aligned
with the painting plane normal. -/
def alignedHit : RayHit :=
  ⟨⟨1, 0, 0⟩, ⟨0, 0, 1⟩, 0, 1⟩

/-- Build-mode state whose mesh raycast reports `oppositeHit`. -/
def buildOppositeState : ToolState :=
  ⟨baseScene, Affine.idAffine, 0, quadMesh,
   fun _ _ => some oppositeHit, fun _ _ _ => none, [], ["m"]⟩

/-- Build-mode state whose mesh raycast reports `alignedHit`. -/
def buildAlignedState : ToolState :=
  { buildOppositeState with tree := fun _ _ => some alignedHit }

/-- Paint-mode state over the texture-less grid whose raycast hits face 0. -/
def paintNoTexState : ToolState :=
  { buildOppositeState with
      scene := noTexScene, tree := fun _ _ => some alignedHit }

/-- Pointer-ray origin used by the orchestrator fixtures. -/
def rayO : Vec3 :=
  ⟨1, 0, 1⟩

/-- Pointer-ray direction used by the orchestrator fixtures. -/
def rayD : Vec3 :=
  ⟨0, 0, -1⟩

/-- The specification's wording of the direction-vector query, for
comparison with the source translation `get_virtual_cursor_vector`:
"average of consecutive-entry difference vectors over the full history
(zero vector if fewer than 2 entries)" — the sum of the differences divided
by the number of differences. -/
def directionVector_spec (virtual_cursor : List Vec3) : Vec3 :=
  if virtual_cursor.length ≤ 1 then 0
  else
    let segments := (virtual_cursor.tail.zip virtual_cursor).map fun p => p.1 - p.2
    (1 / (segments.length : ℚ)) • segments.foldl (· + ·) 0

/-!  ## General lemmas about the embedding primitives  -/

theorem ratSqrt_pos {q : ℚ} (hq : 0 < q) : 0 < ratSqrt q := by
  have hnum : 0 < q.num := Rat.num_pos.mpr hq
  have hnum1 : 0 < Int.sqrt q.num := by
    unfold Int.sqrt
    have : 0 < q.num.toNat := by omega
    exact_mod_cast Nat.sqrt_pos.mpr this
  have hden : 0 < q.den := q.pos
  have hden1 : 0 < Nat.sqrt q.den := Nat.sqrt_pos.mpr hden
  apply div_pos
  · exact_mod_cast hnum1
  · exact_mod_cast hden1

theorem ratSqrt_mul_self (a : ℚ) (ha : 0 ≤ a) : ratSqrt (a * a) = a := by
  unfold ratSqrt
  rw [Rat.mul_self_num, Rat.mul_self_den, Int.sqrt_eq, Nat.sqrt_eq]
  rw [Int.natAbs_of_nonneg (Rat.num_nonneg.mpr ha)]
  exact Rat.num_div_den a

theorem ratSqrt_eq_of_sq {q a : ℚ} (ha : 0 ≤ a) (h : a * a = q) : ratSqrt q = a := by
  rw [← h]; exact ratSqrt_mul_self a ha

@[simp] theorem ratSqrt_zero : ratSqrt 0 = 0 :=
  ratSqrt_eq_of_sq le_rfl (by norm_num)

@[simp] theorem ratSqrt_one : ratSqrt 1 = 1 :=
  ratSqrt_eq_of_sq zero_le_one (by norm_num)

@[simp] theorem ratSqrt_25 : ratSqrt 25 = 5 :=
  ratSqrt_eq_of_sq (by norm_num) (by norm_num)

@[simp] theorem ratSqrt_81 : ratSqrt 81 = 9 :=
  ratSqrt_eq_of_sq (by norm_num) (by norm_num)

namespace Vec3

theorem zero_def : (0 : Vec3) = ⟨0, 0, 0⟩ := rfl

theorem add_def (a b : Vec3) : a + b = ⟨a.x + b.x, a.y + b.y, a.z + b.z⟩ := rfl

theorem neg_def (a : Vec3) : -a = ⟨-a.x, -a.y, -a.z⟩ := rfl

theorem sub_def (a b : Vec3) : a - b = ⟨a.x - b.x, a.y - b.y, a.z - b.z⟩ := rfl

theorem smul_def (s : ℚ) (a : Vec3) : s • a = ⟨s * a.x, s * a.y, s * a.z⟩ := rfl

theorem dot_comm (a b : Vec3) : a.dot b = b.dot a := by
  unfold dot; ring

@[simp] theorem add_dot (a b c : Vec3) : (a + b).dot c = a.dot c + b.dot c := by
  unfold dot; simp [add_def]; ring

@[simp] theorem sub_dot (a b c : Vec3) : (a - b).dot c = a.dot c - b.dot c := by
  unfold dot; simp [sub_def]; ring

@[simp] theorem smul_dot (s : ℚ) (a b : Vec3) : (s • a).dot b = s * a.dot b := by
  unfold dot; simp [smul_def]; ring

@[simp] theorem dot_smul (s : ℚ) (a b : Vec3) : a.dot (s • b) = s * a.dot b := by
  unfold dot; simp [smul_def]; ring

@[simp] theorem neg_dot (a b : Vec3) : (-a).dot b = -(a.dot b) := by
  unfold dot; simp [neg_def]; ring

@[simp] theorem dot_neg (a b : Vec3) : a.dot (-b) = -(a.dot b) := by
  unfold dot; simp [neg_def]; ring

@[simp] theorem zero_dot (a : Vec3) : (0 : Vec3).dot a = 0 := by
  unfold dot; simp [zero_def]

@[simp] theorem dot_zero (a : Vec3) : a.dot (0 : Vec3) = 0 := by
  unfold dot; simp [zero_def]

@[simp] theorem zero_x : (0 : Vec3).x = 0 := rfl

@[simp] theorem zero_y : (0 : Vec3).y = 0 := rfl

@[simp] theorem zero_z : (0 : Vec3).z = 0 := rfl

theorem dot_self_nonneg (a : Vec3) : 0 ≤ a.dot a := by
  unfold dot; nlinarith [sq_nonneg a.x, sq_nonneg a.y, sq_nonneg a.z]

theorem dot_self_pos {a : Vec3} (h : a ≠ 0) : 0 < a.dot a := by
  rcases lt_or_eq_of_le (dot_self_nonneg a) with hlt | heq
  · exact hlt
  · exfalso
    apply h
    unfold dot at heq
    ext <;> simp <;> nlinarith [sq_nonneg a.x, sq_nonneg a.y, sq_nonneg a.z]

theorem magnitude_pos {a : Vec3} (h : a ≠ 0) : 0 < a.magnitude :=
  ratSqrt_pos (dot_self_pos h)

/-- The sign of a dot product with a normalized vector agrees with the sign of
the dot product with the vector itself (the magnitude is a positive common
factor; the zero vector gives zero on both sides). -/
theorem dot_normalized_pos_iff (r w : Vec3) :
    0 < r.dot w.normalized ↔ 0 < r.dot w := by
  by_cases hw : w = 0
  · subst hw; simp [normalized]
  · have hm := magnitude_pos hw
    have hinv : 0 < 1 / w.magnitude := by positivity
    unfold normalized
    rw [dot_comm, smul_dot, dot_comm w r]
    constructor
    · intro h
      by_contra hle
      push_neg at hle
      nlinarith
    · intro h
      positivity

theorem dot_normalized_neg_iff (r w : Vec3) :
    r.dot w.normalized < 0 ↔ r.dot w < 0 := by
  have h1 := dot_normalized_pos_iff (-r) w
  simp only [neg_dot] at h1
  constructor
  · intro h; have := h1.mp (by linarith); linarith
  · intro h; have := h1.mpr (by linarith); linarith

@[simp] theorem add_x (a b : Vec3) : (a + b).x = a.x + b.x := rfl

@[simp] theorem add_y (a b : Vec3) : (a + b).y = a.y + b.y := rfl

@[simp] theorem add_z (a b : Vec3) : (a + b).z = a.z + b.z := rfl

@[simp] theorem sub_x (a b : Vec3) : (a - b).x = a.x - b.x := rfl

@[simp] theorem sub_y (a b : Vec3) : (a - b).y = a.y - b.y := rfl

@[simp] theorem sub_z (a b : Vec3) : (a - b).z = a.z - b.z := rfl

@[simp] theorem neg_x (a : Vec3) : (-a).x = -a.x := rfl

@[simp] theorem neg_y (a : Vec3) : (-a).y = -a.y := rfl

@[simp] theorem neg_z (a : Vec3) : (-a).z = -a.z := rfl

@[simp] theorem smul_x (s : ℚ) (a : Vec3) : (s • a).x = s * a.x := rfl

@[simp] theorem smul_y (s : ℚ) (a : Vec3) : (s • a).y = s * a.y := rfl

@[simp] theorem smul_z (s : ℚ) (a : Vec3) : (s • a).z = s * a.z := rfl

/-- A vector whose squared length is one normalizes to itself. -/
theorem normalized_of_unit {v : Vec3} (h : v.dot v = 1) : v.normalized = v := by
  unfold normalized magnitude
  rw [h, ratSqrt_one]
  ext <;> simp

end Vec3

/-!  ## Helper lemmas about the mesh operations  -/

/-- `uv_map_face` never touches the vertex table. -/
theorem uv_map_face_verts (scene : Scene) (grid_id : Nat)
    (up_vector right_vector : Vec3) (tile_xy : ℚ × ℚ) (face_index : Nat)
    (mesh : BMesh) :
    (uv_map_face scene grid_id up_vector right_vector tile_xy face_index mesh).1.verts
      = mesh.verts := by
  simp only [uv_map_face]
  split
  · rfl
  · split <;> rfl

/-- `uv_map_face` never changes the number of faces. -/
theorem uv_map_face_faces_length (scene : Scene) (grid_id : Nat)
    (up_vector right_vector : Vec3) (tile_xy : ℚ × ℚ) (face_index : Nat)
    (mesh : BMesh) :
    (uv_map_face scene grid_id up_vector right_vector tile_xy face_index mesh).1.faces.length
      = mesh.faces.length := by
  simp only [uv_map_face]
  split
  · rfl
  · split
    · rfl
    · simp [List.length_set]

/-- The fold over consecutive-entry segments telescopes to `last - first`. -/
theorem segments_foldl (l : List Vec3) (a init : Vec3) :
    ((l.zip (a :: l)).map fun p => p.1 - p.2).foldl (· + ·) init
      = init + (l.getLastD a - a) := by
  induction l generalizing a init with
  | nil =>
    simp only [List.zip_nil_left, List.map_nil, List.foldl_nil, List.getLastD_nil]
    ext <;> simp
  | cons b t ih =>
    simp only [List.zip_cons_cons, List.map_cons, List.foldl_cons, List.getLastD_cons]
    rw [ih]
    ext <;> simp <;> ring

/-!  ## Claim C8: UV round-trip scenario  -/

/-- C8: with a 32x32-pixel grid cell and a 256x256-pixel texture the UV unit
is `(1/8, 1/8) = (0.125, 0.125)`, and with tile selection `(2, 1)` the vertex
of `centroidMesh`'s face whose offset from the face centroid is zero (loop 4)
is mapped to the UV coordinate `(5/16, 3/16) = (0.3125, 0.1875)`. -/
theorem c8_uv_roundtrip :
    texGrid.grid_x / (256 : ℚ) = 1 / 8 ∧
    texGrid.grid_y / (256 : ℚ) = 1 / 8 ∧
    ((uv_map_face baseScene 0 ⟨0, 1, 0⟩ ⟨1, 0, 0⟩ (2, 1) 0 centroidMesh).1.faces.getD 0
        defaultFace).loops.getD 4 ⟨0, (0, 0)⟩ = ⟨4, (5 / 16, 3 / 16)⟩ := by
  norm_num [uv_map_face, baseScene, paintData, texGrid, centroidMesh, defaultGrid,
    defaultFace, get_grid_texture, Vec3.dot, Vec3.sub_def, Vec3.add_def, Vec3.smul_def,
    Vec3.zero_def, List.getD, List.foldl]

/-!  ## Claim C9: UV projection error handling  -/

/-- C9: `uv_map_face` itself is a silent no-op on an unresolvable texture and
on an out-of-range face index, but the paint-mode path is not: with the
texture-less grid active, `execute_paint` reaches the unpacking
`face_index, grid = uv_map_face(...)` of the `None` return and raises a
`TypeError` (embedded as the `none` result), contradicting the claim that
the paint path raises no error. -/
theorem c9_uv_noop_but_paint_raises :
    uv_map_face noTexScene 0 ⟨0, 1, 0⟩ ⟨1, 0, 0⟩ (2, 1) 0 quadMesh = (quadMesh, none) ∧
    uv_map_face baseScene 0 ⟨0, 1, 0⟩ ⟨1, 0, 0⟩ (2, 1) 5 quadMesh = (quadMesh, none) ∧
    execute_paint paintNoTexState rayO rayD = none := by
  refine ⟨?_, ?_, ?_⟩
  · norm_num [uv_map_face, noTexScene, paintData, noTexGrid, defaultGrid, get_grid_texture]
  · norm_num [uv_map_face, baseScene, paintData, texGrid, quadMesh, defaultGrid,
      get_grid_texture]
  · norm_num [execute_paint, paintNoTexState, buildOppositeState, noTexScene, paintData,
      noTexGrid, rayO, rayD, alignedHit, quadMesh, defaultGrid, defaultFace,
      get_current_grid_vectors, raycast_object, uv_map_face, get_grid_texture,
      add_virtual_cursor, dequeAppend,
      Affine.apply, Affine.inverted, Affine.idAffine, Mat3.mulVec, Mat3.inv, Mat3.det,
      Mat3.id3, Vec3.normalized, Vec3.magnitude, Vec3.dot, Vec3.cross,
      Vec3.sub_def, Vec3.add_def, Vec3.smul_def, Vec3.neg_def, Vec3.zero_def,
      List.getD, List.foldl]

/-!  ## Claim C4: cursor-flow prediction  -/

/-- C4: `flow_cursor` does not move the cursor to the minimum-scoring vertex.
With travel direction `(1,0,0)`, vertex 0 of `flowMesh` scores `0` (the
minimum) and vertex 1 scores `2/5`, yet the result is vertex 1's position
`(3,4,0)` — the loop never updates its `max_dot` bound, so the last vertex
scoring below `1` wins.  The no-op behaviour for a history holding at most
one entry does hold. -/
theorem c4_flow_cursor_slip :
    flow_cursor Affine.idAffine flowMesh 0 [⟨0, 0, 0⟩, ⟨2, 0, 0⟩] ⟨0, 0, 0⟩ =
      some ⟨3, 4, 0⟩ ∧
    |1 - ((Affine.idAffine.apply ⟨1, 0, 0⟩ - ⟨0, 0, 0⟩).normalized.dot
        (get_virtual_cursor_vector [⟨0, 0, 0⟩, ⟨2, 0, 0⟩]).normalized)| = 0 ∧
    |1 - ((Affine.idAffine.apply ⟨3, 4, 0⟩ - ⟨0, 0, 0⟩).normalized.dot
        (get_virtual_cursor_vector [⟨0, 0, 0⟩, ⟨2, 0, 0⟩]).normalized)| = 2 / 5 ∧
    (⟨3, 4, 0⟩ : Vec3) ≠ ⟨1, 0, 0⟩ ∧
    flow_cursor Affine.idAffine flowMesh 0 [⟨0, 0, 0⟩] ⟨0, 0, 0⟩ = none := by
  norm_num [flow_cursor, flowMesh, get_virtual_cursor_vector, defaultFace,
    Affine.apply, Affine.idAffine, Mat3.mulVec, Mat3.id3, abs_of_nonneg, abs_of_nonpos,
    Vec3.normalized, Vec3.magnitude, Vec3.dot, Vec3.sub_def, Vec3.add_def, Vec3.smul_def,
    Vec3.zero_def, Vec3.mk.injEq, List.getD, List.foldl, List.enum, List.enumFrom,
    List.zip, List.zipWith]

/-!  ## Claim C6: the virtual-cursor direction vector  -/

/-- C6 counterexample: for the history `[(0,0,0), (2,0,0)]` the code returns
the segment sum divided by the history length 2, namely `(1,0,0)`, whereas
the claim's "sum of the differences divided by the number of differences"
is `(2,0,0)`. -/
theorem c6_counterexample :
    get_virtual_cursor_vector [⟨0, 0, 0⟩, ⟨2, 0, 0⟩] = ⟨1, 0, 0⟩ ∧
    directionVector_spec [⟨0, 0, 0⟩, ⟨2, 0, 0⟩] = ⟨2, 0, 0⟩ ∧
    get_virtual_cursor_vector [⟨0, 0, 0⟩, ⟨2, 0, 0⟩] ≠
      directionVector_spec [⟨0, 0, 0⟩, ⟨2, 0, 0⟩] := by
  norm_num [get_virtual_cursor_vector, directionVector_spec, List.zip, List.zipWith,
    List.foldl, Vec3.sub_def, Vec3.add_def, Vec3.smul_def, Vec3.zero_def, Vec3.mk.injEq]

/-- C6 (amended): the direction query returns the zero vector for a history
of fewer than two entries, and otherwise returns the sum of the
consecutive-entry differences — which telescopes to `last - first` — divided
by the history length `n`, not by the number of differences `n - 1`. -/
theorem c6_direction_vector_amended (virtual_cursor : List Vec3) :
    (virtual_cursor.length ≤ 1 → get_virtual_cursor_vector virtual_cursor = 0) ∧
    (2 ≤ virtual_cursor.length →
      get_virtual_cursor_vector virtual_cursor =
        (1 / (virtual_cursor.length : ℚ)) •
          (virtual_cursor.getLastD 0 - virtual_cursor.headD 0)) := by
  constructor
  · intro h
    simp only [get_virtual_cursor_vector]
    rw [if_pos h]
  · intro h
    cases virtual_cursor with
    | nil => simp at h
    | cons a l =>
      simp only [get_virtual_cursor_vector, List.tail_cons]
      rw [if_neg (by simp only [List.length_cons] at h ⊢; omega)]
      rw [segments_foldl l a 0]
      simp only [List.getLastD_cons, List.headD_cons]
      ext <;> simp

/-- C6 witness: the amended statement evaluated on the concrete history
`[(0,0,0), (2,0,0)]`. -/
theorem c6_direction_vector_witness :
    get_virtual_cursor_vector [⟨0, 0, 0⟩, ⟨2, 0, 0⟩] =
      (1 / ((([⟨0, 0, 0⟩, ⟨2, 0, 0⟩] : List Vec3).length : ℕ) : ℚ)) •
        (([⟨0, 0, 0⟩, ⟨2, 0, 0⟩] : List Vec3).getLastD 0 -
          ([⟨0, 0, 0⟩, ⟨2, 0, 0⟩] : List Vec3).headD 0) :=
  (c6_direction_vector_amended [⟨0, 0, 0⟩, ⟨2, 0, 0⟩]).2 (by norm_num)

/-!  ## Claim C3: re-signing of the grid basis vectors  -/

/-- C3 counterexample: with grid origin `(10,0,0)` and sample `(9,0,0)` the
returned right edge is `(1,0,0)`, whose dot product with the normalized
vector from the grid origin to the sample, `(-1,0,0)`, is `-1 < 0` — the
re-signing is not relative to the grid origin. -/
theorem c3_counterexample :
    (get_grid_pos ⟨9, 0, 0⟩ ⟨10, 0, 0⟩ ⟨1, 0, 0⟩ ⟨0, 1, 0⟩ 1 1 1).2.1 = ⟨1, 0, 0⟩ ∧
    (get_grid_pos ⟨9, 0, 0⟩ ⟨10, 0, 0⟩ ⟨1, 0, 0⟩ ⟨0, 1, 0⟩ 1 1 1).2.1.dot
        ((⟨9, 0, 0⟩ - ⟨10, 0, 0⟩ : Vec3).normalized) < 0 := by
  norm_num [get_grid_pos, Vec3.normalized, Vec3.magnitude, Vec3.dot,
    Vec3.sub_def, Vec3.add_def, Vec3.smul_def, Vec3.neg_def, Vec3.zero_def]

/-- C3 (amended): the basis vectors are re-signed against the normalized
*sample position* — the vector from the world origin to the sample, not from
the grid origin — so for positive cell sizes each returned edge vector has a
non-negative dot product with the normalized sample position. -/
theorem c3_resign_toward_sample (position grid_center right_vector up_vector : Vec3)
    (world_pixels grid_x grid_y : ℚ)
    (hwp : 0 < world_pixels) (hgx : 0 < grid_x) (hgy : 0 < grid_y) :
    0 ≤ (get_grid_pos position grid_center right_vector up_vector
          world_pixels grid_x grid_y).2.1.dot position.normalized ∧
    0 ≤ (get_grid_pos position grid_center right_vector up_vector
          world_pixels grid_x grid_y).2.2.dot position.normalized := by
  have hx : 0 ≤ grid_x / world_pixels := le_of_lt (div_pos hgx hwp)
  have hy : 0 ≤ grid_y / world_pixels := le_of_lt (div_pos hgy hwp)
  simp only [get_grid_pos]
  constructor
  · split_ifs with h1
    · simp only [Vec3.smul_dot, Vec3.neg_dot]
      exact mul_nonneg hx (by linarith)
    · simp only [Vec3.smul_dot]
      exact mul_nonneg hx (not_lt.mp h1)
  · split_ifs with h1
    · simp only [Vec3.smul_dot, Vec3.neg_dot]
      exact mul_nonneg hy (by linarith)
    · simp only [Vec3.smul_dot]
      exact mul_nonneg hy (not_lt.mp h1)

/-- C3 witness: the amended re-signing statement evaluated at a concrete
sample, origin and frame. -/
theorem c3_resign_toward_sample_witness :
    0 ≤ (get_grid_pos ⟨1, 2, 3⟩ ⟨5, 0, 0⟩ ⟨1, 0, 0⟩ ⟨0, 1, 0⟩ 1 1 1).2.1.dot
          (⟨1, 2, 3⟩ : Vec3).normalized ∧
    0 ≤ (get_grid_pos ⟨1, 2, 3⟩ ⟨5, 0, 0⟩ ⟨1, 0, 0⟩ ⟨0, 1, 0⟩ 1 1 1).2.2.dot
          (⟨1, 2, 3⟩ : Vec3).normalized :=
  c3_resign_toward_sample ⟨1, 2, 3⟩ ⟨5, 0, 0⟩ ⟨1, 0, 0⟩ ⟨0, 1, 0⟩ 1 1 1
    (by norm_num) (by norm_num) (by norm_num)

/-!  ## Claim C2: idempotence of the grid snap  -/

/-- Negating the base vector of a nested scalar action negates the integer
coefficient. -/
theorem intCast_smul_smul_neg (n : ℤ) (s : ℚ) (v : Vec3) :
    (n : ℚ) • (s • -v) = ((-n : ℤ) : ℚ) • (s • v) := by
  push_cast
  ext <;> simp <;> ring

/-- Every snapped position is a lattice point: the grid origin plus integer
multiples of the cell-sized basis vectors. -/
theorem get_grid_pos_form (position grid_center right_vector up_vector : Vec3)
    (world_pixels grid_x grid_y : ℚ) :
    ∃ k j : ℤ,
      (get_grid_pos position grid_center right_vector up_vector
          world_pixels grid_x grid_y).1 =
        grid_center + (k : ℚ) • ((grid_x / world_pixels) • right_vector)
          + (j : ℚ) • ((grid_y / world_pixels) • up_vector) := by
  simp only [get_grid_pos]
  split_ifs with h1 h2
  · exact ⟨_, _, by rw [intCast_smul_smul_neg, intCast_smul_smul_neg]⟩
  · exact ⟨_, _, by rw [intCast_smul_smul_neg]⟩
  · exact ⟨_, _, by rw [intCast_smul_smul_neg]⟩
  · exact ⟨_, _, rfl⟩

/-- Dot product of a lattice offset with the right basis vector. -/
theorem lattice_dot_right (grid_center right_vector up_vector : Vec3) (a b : ℚ)
    (hr : right_vector.dot right_vector = 1)
    (hur : up_vector.dot right_vector = 0) (k j : ℤ) :
    ((grid_center + (k : ℚ) • (a • right_vector) + (j : ℚ) • (b • up_vector))
        - grid_center).dot right_vector = (k : ℚ) * a := by
  simp only [Vec3.sub_dot, Vec3.add_dot, Vec3.smul_dot, hr, hur]
  ring

/-- Dot product of a lattice offset with the up basis vector. -/
theorem lattice_dot_up (grid_center right_vector up_vector : Vec3) (a b : ℚ)
    (hu : up_vector.dot up_vector = 1)
    (hru : right_vector.dot up_vector = 0) (k j : ℤ) :
    ((grid_center + (k : ℚ) • (a • right_vector) + (j : ℚ) • (b • up_vector))
        - grid_center).dot up_vector = (j : ℚ) * b := by
  simp only [Vec3.sub_dot, Vec3.add_dot, Vec3.smul_dot, hu, hru]
  ring

/-- Re-snapping a lattice point reproduces it, whatever signs the re-query
chooses for the basis vectors. -/
theorem get_grid_pos_lattice (grid_center right_vector up_vector : Vec3)
    (world_pixels grid_x grid_y : ℚ)
    (hr : right_vector.dot right_vector = 1)
    (hu : up_vector.dot up_vector = 1)
    (hru : right_vector.dot up_vector = 0)
    (hx : grid_x / world_pixels ≠ 0) (hy : grid_y / world_pixels ≠ 0)
    (k j : ℤ) :
    (get_grid_pos
        (grid_center + (k : ℚ) • ((grid_x / world_pixels) • right_vector)
          + (j : ℚ) • ((grid_y / world_pixels) • up_vector))
        grid_center right_vector up_vector world_pixels grid_x grid_y).1 =
      grid_center + (k : ℚ) • ((grid_x / world_pixels) • right_vector)
        + (j : ℚ) • ((grid_y / world_pixels) • up_vector) := by
  have hur : up_vector.dot right_vector = 0 := by
    rw [Vec3.dot_comm]; exact hru
  simp only [get_grid_pos]
  split_ifs with h1 h2 <;>
    simp only [Vec3.dot_neg,
      lattice_dot_right grid_center right_vector up_vector _ _ hr hur k j,
      lattice_dot_up grid_center right_vector up_vector _ _ hu hru k j,
      neg_div, mul_div_cancel_right₀ _ hx, mul_div_cancel_right₀ _ hy,
      Int.floor_neg, Int.ceil_intCast, Int.floor_intCast] <;>
    (ext <;> push_cast <;> simp <;> ring)

/-- C2 counterexample: for the orthonormal frame at the origin with unit
cells, the sample `(-3/5, 4/5, 0)` snaps to cell position `(0,0,0)` with the
right edge flipped to `(-1,0,0)`; re-querying that cell position returns the
unflipped right edge `(1,0,0)`, so the full results differ — the function is
not idempotent as a whole (only the cell position is preserved). -/
theorem c2_counterexample :
    get_grid_pos ⟨-3/5, 4/5, 0⟩ ⟨0, 0, 0⟩ ⟨1, 0, 0⟩ ⟨0, 1, 0⟩ 1 1 1 =
      (⟨0, 0, 0⟩, ⟨-1, 0, 0⟩, ⟨0, 1, 0⟩) ∧
    get_grid_pos (get_grid_pos ⟨-3/5, 4/5, 0⟩ ⟨0, 0, 0⟩ ⟨1, 0, 0⟩ ⟨0, 1, 0⟩ 1 1 1).1
        ⟨0, 0, 0⟩ ⟨1, 0, 0⟩ ⟨0, 1, 0⟩ 1 1 1 =
      (⟨0, 0, 0⟩, ⟨1, 0, 0⟩, ⟨0, 1, 0⟩) ∧
    get_grid_pos (get_grid_pos ⟨-3/5, 4/5, 0⟩ ⟨0, 0, 0⟩ ⟨1, 0, 0⟩ ⟨0, 1, 0⟩ 1 1 1).1
        ⟨0, 0, 0⟩ ⟨1, 0, 0⟩ ⟨0, 1, 0⟩ 1 1 1 ≠
      get_grid_pos ⟨-3/5, 4/5, 0⟩ ⟨0, 0, 0⟩ ⟨1, 0, 0⟩ ⟨0, 1, 0⟩ 1 1 1 := by
  refine ⟨?_, ?_, ?_⟩ <;>
    norm_num [get_grid_pos, Vec3.normalized, Vec3.magnitude, Vec3.dot,
      Vec3.sub_def, Vec3.add_def, Vec3.smul_def, Vec3.neg_def, Vec3.zero_def,
      Prod.ext_iff, Vec3.mk.injEq]

/-- C2 (amended): for an orthonormal frame with positive cell sizes,
re-querying the snapped cell position with the same frame yields the same
cell position (the re-signed edge vectors, however, may come back with the
opposite sign, so the full returned triple need not be equal). -/
theorem c2_cell_position_idempotent
    (position grid_center right_vector up_vector : Vec3)
    (world_pixels grid_x grid_y : ℚ)
    (hr : right_vector.dot right_vector = 1)
    (hu : up_vector.dot up_vector = 1)
    (hru : right_vector.dot up_vector = 0)
    (hwp : 0 < world_pixels) (hgx : 0 < grid_x) (hgy : 0 < grid_y) :
    (get_grid_pos
        (get_grid_pos position grid_center right_vector up_vector
            world_pixels grid_x grid_y).1
        grid_center right_vector up_vector world_pixels grid_x grid_y).1 =
      (get_grid_pos position grid_center right_vector up_vector
          world_pixels grid_x grid_y).1 := by
  obtain ⟨k, j, hkj⟩ :=
    get_grid_pos_form position grid_center right_vector up_vector
      world_pixels grid_x grid_y
  rw [hkj]
  exact get_grid_pos_lattice grid_center right_vector up_vector
    world_pixels grid_x grid_y hr hu hru
    (ne_of_gt (div_pos hgx hwp)) (ne_of_gt (div_pos hgy hwp)) k j

/-- C2 witness: cell-position idempotence at the concrete sample of the
counterexample frame. -/
theorem c2_cell_position_idempotent_witness :
    (get_grid_pos
        (get_grid_pos ⟨-3/5, 4/5, 0⟩ ⟨0, 0, 0⟩ ⟨1, 0, 0⟩ ⟨0, 1, 0⟩ 1 1 1).1
        ⟨0, 0, 0⟩ ⟨1, 0, 0⟩ ⟨0, 1, 0⟩ 1 1 1).1 =
      (get_grid_pos ⟨-3/5, 4/5, 0⟩ ⟨0, 0, 0⟩ ⟨1, 0, 0⟩ ⟨0, 1, 0⟩ 1 1 1).1 :=
  c2_cell_position_idempotent ⟨-3/5, 4/5, 0⟩ ⟨0, 0, 0⟩ ⟨1, 0, 0⟩ ⟨0, 1, 0⟩ 1 1 1
    (by norm_num [Vec3.dot]) (by norm_num [Vec3.dot]) (by norm_num [Vec3.dot])
    (by norm_num) (by norm_num) (by norm_num)

/-!  ## Claim C5: axis snapping  -/

/-- `ratSqrt` never returns a negative value. -/
theorem ratSqrt_nonneg (q : ℚ) : 0 ≤ ratSqrt q :=
  div_nonneg (by exact_mod_cast Int.sqrt_nonneg q.num) (by positivity)

/-- Magnitudes are nonnegative. -/
theorem Vec3.magnitude_nonneg (v : Vec3) : 0 ≤ v.magnitude :=
  ratSqrt_nonneg _

/-- Alignment scores `1 - |minv * a|` compare opposite to the components. -/
theorem score_le (minv a b : ℚ) (h0 : 0 ≤ minv) (h : |b| ≤ |a|) :
    1 - |minv * a| ≤ 1 - |minv * b| := by
  rw [abs_mul, abs_mul, abs_of_nonneg h0]
  nlinarith [abs_nonneg a, abs_nonneg b]

/-- Strict version of `score_le`. -/
theorem score_lt (minv a b : ℚ) (h0 : 0 < minv) (h : |b| < |a|) :
    1 - |minv * a| < 1 - |minv * b| := by
  rw [abs_mul, abs_mul, abs_of_pos h0]
  nlinarith

/-- The sign-fixing tail of `snap_vector_to_axis` in the non-mirrored case:
the result sign agrees with the input component along the chosen axis. -/
theorem snap_tail_not_mirrored (vd c minv : ℚ) (w : Vec3)
    (hvd : vd = minv * c) (hminv : 0 < minv) (hc : c ≠ 0) :
    (if false = false ∧ vd < 0 then -w
      else if false = true ∧ vd > 0 then -w else w) =
      if 0 < c then w else -w := by
  rcases lt_or_gt_of_ne hc with h | h
  · rw [if_pos ⟨rfl, by rw [hvd]; exact mul_neg_of_pos_of_neg hminv h⟩,
      if_neg (by linarith)]
  · rw [if_neg (by simp [hvd]; nlinarith), if_neg (by simp), if_pos h]

/-- The sign-fixing tail of `snap_vector_to_axis` in the mirrored case:
the result sign opposes the input component along the chosen axis. -/
theorem snap_tail_mirrored (vd c minv : ℚ) (w : Vec3)
    (hvd : vd = minv * c) (hminv : 0 < minv) (hc : c ≠ 0) :
    (if true = false ∧ vd < 0 then -w
      else if true = true ∧ vd > 0 then -w else w) =
      if 0 < c then -w else w := by
  rcases lt_or_gt_of_ne hc with h | h
  · rw [if_neg (by simp), if_neg (by simp [hvd]; nlinarith), if_neg (by linarith)]
  · rw [if_neg (by simp), if_pos ⟨rfl, by rw [hvd]; exact mul_pos hminv h⟩,
      if_pos h]

/-- The sign-fixing tail always returns the chosen axis up to sign. -/
theorem snap_tail_any (vd : ℚ) (mir : Bool) (w : Vec3) :
    (if mir = false ∧ vd < 0 then -w
      else if mir = true ∧ vd > 0 then -w else w) = w ∨
    (if mir = false ∧ vd < 0 then -w
      else if mir = true ∧ vd > 0 then -w else w) = -w := by
  split_ifs
  · right; rfl
  · right; rfl
  · left; rfl


/-- When the X score is a first minimum, the snapped axis is X and only the
sign-fixing tail remains. -/
theorem snap_select_x (v : Vec3) (mirrored : Bool)
    (key1 : 1 - |v.normalized.dot ⟨1, 0, 0⟩| ≤ 1 - |v.normalized.dot ⟨0, 1, 0⟩|)
    (key2 : 1 - |v.normalized.dot ⟨1, 0, 0⟩| ≤ 1 - |v.normalized.dot ⟨0, 0, 1⟩|) :
    snap_vector_to_axis v mirrored =
      (if mirrored = false ∧ v.normalized.dot ⟨1, 0, 0⟩ < 0 then -⟨1, 0, 0⟩
       else if mirrored = true ∧ v.normalized.dot ⟨1, 0, 0⟩ > 0 then -⟨1, 0, 0⟩
       else ⟨1, 0, 0⟩) := by
  simp only [snap_vector_to_axis]
  rw [if_pos (⟨key1, key2⟩ : (_ ≤ _) ∧ (_ ≤ _))]

/-- When the X score is not a first minimum but the Y score beats Z, the
snapped axis is Y. -/
theorem snap_select_y (v : Vec3) (mirrored : Bool)
    (keyneg : ¬(1 - |v.normalized.dot ⟨1, 0, 0⟩| ≤ 1 - |v.normalized.dot ⟨0, 1, 0⟩| ∧
      1 - |v.normalized.dot ⟨1, 0, 0⟩| ≤ 1 - |v.normalized.dot ⟨0, 0, 1⟩|))
    (key3 : 1 - |v.normalized.dot ⟨0, 1, 0⟩| ≤ 1 - |v.normalized.dot ⟨0, 0, 1⟩|) :
    snap_vector_to_axis v mirrored =
      (if mirrored = false ∧ v.normalized.dot ⟨0, 1, 0⟩ < 0 then -⟨0, 1, 0⟩
       else if mirrored = true ∧ v.normalized.dot ⟨0, 1, 0⟩ > 0 then -⟨0, 1, 0⟩
       else ⟨0, 1, 0⟩) := by
  simp only [snap_vector_to_axis]
  rw [if_neg keyneg, if_pos (key3 : (_ ≤ _))]

/-- When neither the X nor the Y score wins, the snapped axis is Z. -/
theorem snap_select_z (v : Vec3) (mirrored : Bool)
    (keyneg1 : ¬(1 - |v.normalized.dot ⟨1, 0, 0⟩| ≤ 1 - |v.normalized.dot ⟨0, 1, 0⟩| ∧
      1 - |v.normalized.dot ⟨1, 0, 0⟩| ≤ 1 - |v.normalized.dot ⟨0, 0, 1⟩|))
    (keyneg2 : ¬(1 - |v.normalized.dot ⟨0, 1, 0⟩| ≤ 1 - |v.normalized.dot ⟨0, 0, 1⟩|)) :
    snap_vector_to_axis v mirrored =
      (if mirrored = false ∧ v.normalized.dot ⟨0, 0, 1⟩ < 0 then -⟨0, 0, 1⟩
       else if mirrored = true ∧ v.normalized.dot ⟨0, 0, 1⟩ > 0 then -⟨0, 0, 1⟩
       else ⟨0, 0, 1⟩) := by
  simp only [snap_vector_to_axis]
  rw [if_neg keyneg1, if_neg keyneg2]

/-- C5: for a direction with a unique axis of maximal alignment,
`snap_vector_to_axis` returns that principal axis, with the sign agreeing
with the input along that axis when not mirrored and opposing it when
mirrored; for an exact alignment tie the first axis in the fixed X, Y, Z
priority order is chosen (up to the sign rule).  The three tie clauses are
exhaustive: a tie of maximal alignment either involves X (with the third
score equal or strictly below, the X-Y and X-Z families) or is a Y-Z tie
above X, and in each family the earliest tied axis wins. -/
theorem c5_snap_vector_to_axis (v : Vec3) :
    ((|v.y| < |v.x| ∧ |v.z| < |v.x|) →
      snap_vector_to_axis v false = (if 0 < v.x then ⟨1, 0, 0⟩ else -⟨1, 0, 0⟩) ∧
      snap_vector_to_axis v true = (if 0 < v.x then -⟨1, 0, 0⟩ else ⟨1, 0, 0⟩)) ∧
    ((|v.x| < |v.y| ∧ |v.z| < |v.y|) →
      snap_vector_to_axis v false = (if 0 < v.y then ⟨0, 1, 0⟩ else -⟨0, 1, 0⟩) ∧
      snap_vector_to_axis v true = (if 0 < v.y then -⟨0, 1, 0⟩ else ⟨0, 1, 0⟩)) ∧
    ((|v.x| < |v.z| ∧ |v.y| < |v.z|) →
      snap_vector_to_axis v false = (if 0 < v.z then ⟨0, 0, 1⟩ else -⟨0, 0, 1⟩) ∧
      snap_vector_to_axis v true = (if 0 < v.z then -⟨0, 0, 1⟩ else ⟨0, 0, 1⟩)) ∧
    ((|v.y| = |v.x| ∧ |v.z| ≤ |v.x|) → ∀ mirrored,
      snap_vector_to_axis v mirrored = ⟨1, 0, 0⟩ ∨
      snap_vector_to_axis v mirrored = -⟨1, 0, 0⟩) ∧
    ((|v.x| < |v.y| ∧ |v.z| = |v.y|) → ∀ mirrored,
      snap_vector_to_axis v mirrored = ⟨0, 1, 0⟩ ∨
      snap_vector_to_axis v mirrored = -⟨0, 1, 0⟩) ∧
    ((|v.z| = |v.x| ∧ |v.y| < |v.x|) → ∀ mirrored,
      snap_vector_to_axis v mirrored = ⟨1, 0, 0⟩ ∨
      snap_vector_to_axis v mirrored = -⟨1, 0, 0⟩) := by
  have hdx : v.normalized.dot ⟨1, 0, 0⟩ = (1 / v.magnitude) * v.x := by
    simp [Vec3.dot, Vec3.normalized]
  have hdy : v.normalized.dot ⟨0, 1, 0⟩ = (1 / v.magnitude) * v.y := by
    simp [Vec3.dot, Vec3.normalized]
  have hdz : v.normalized.dot ⟨0, 0, 1⟩ = (1 / v.magnitude) * v.z := by
    simp [Vec3.dot, Vec3.normalized]
  have him0 : 0 ≤ 1 / v.magnitude :=
    div_nonneg zero_le_one (Vec3.magnitude_nonneg v)
  have hmp : ∀ c : ℚ, c ≠ 0 → v.x = c ∨ v.y = c ∨ v.z = c → 0 < 1 / v.magnitude := by
    intro c hc hcomp
    have hv : v ≠ 0 := by
      intro h0
      subst h0
      rcases hcomp with h | h | h <;> simp at h <;> exact hc h.symm
    have := Vec3.magnitude_pos hv
    positivity
  refine ⟨?_, ?_, ?_, ?_, ?_, ?_⟩
  · rintro ⟨hy, hz⟩
    have hvx : v.x ≠ 0 := by
      intro h0
      rw [h0, abs_zero] at hy
      exact absurd hy (not_lt.mpr (abs_nonneg _))
    have himp : 0 < 1 / v.magnitude := hmp v.x hvx (Or.inl rfl)
    have key1 : 1 - |v.normalized.dot ⟨1, 0, 0⟩| ≤ 1 - |v.normalized.dot ⟨0, 1, 0⟩| := by
      rw [hdx, hdy]; exact score_le _ _ _ him0 (le_of_lt hy)
    have key2 : 1 - |v.normalized.dot ⟨1, 0, 0⟩| ≤ 1 - |v.normalized.dot ⟨0, 0, 1⟩| := by
      rw [hdx, hdz]; exact score_le _ _ _ him0 (le_of_lt hz)
    exact ⟨by rw [snap_select_x v false key1 key2]
              exact snap_tail_not_mirrored _ v.x (1 / v.magnitude) _ hdx himp hvx,
           by rw [snap_select_x v true key1 key2]
              exact snap_tail_mirrored _ v.x (1 / v.magnitude) _ hdx himp hvx⟩
  · rintro ⟨hx, hz⟩
    have hvy : v.y ≠ 0 := by
      intro h0
      rw [h0, abs_zero] at hx
      exact absurd hx (not_lt.mpr (abs_nonneg _))
    have himp : 0 < 1 / v.magnitude := hmp v.y hvy (Or.inr (Or.inl rfl))
    have keyneg : ¬(1 - |v.normalized.dot ⟨1, 0, 0⟩| ≤ 1 - |v.normalized.dot ⟨0, 1, 0⟩| ∧
        1 - |v.normalized.dot ⟨1, 0, 0⟩| ≤ 1 - |v.normalized.dot ⟨0, 0, 1⟩|) := by
      rintro ⟨h1, _⟩
      rw [hdx, hdy] at h1
      have := score_lt (1 / v.magnitude) v.y v.x himp hx
      linarith
    have key3 : 1 - |v.normalized.dot ⟨0, 1, 0⟩| ≤ 1 - |v.normalized.dot ⟨0, 0, 1⟩| := by
      rw [hdy, hdz]; exact score_le _ _ _ him0 (le_of_lt hz)
    exact ⟨by rw [snap_select_y v false keyneg key3]
              exact snap_tail_not_mirrored _ v.y (1 / v.magnitude) _ hdy himp hvy,
           by rw [snap_select_y v true keyneg key3]
              exact snap_tail_mirrored _ v.y (1 / v.magnitude) _ hdy himp hvy⟩
  · rintro ⟨hx, hy⟩
    have hvz : v.z ≠ 0 := by
      intro h0
      rw [h0, abs_zero] at hx
      exact absurd hx (not_lt.mpr (abs_nonneg _))
    have himp : 0 < 1 / v.magnitude := hmp v.z hvz (Or.inr (Or.inr rfl))
    have keyneg1 : ¬(1 - |v.normalized.dot ⟨1, 0, 0⟩| ≤ 1 - |v.normalized.dot ⟨0, 1, 0⟩| ∧
        1 - |v.normalized.dot ⟨1, 0, 0⟩| ≤ 1 - |v.normalized.dot ⟨0, 0, 1⟩|) := by
      rintro ⟨_, h2⟩
      rw [hdx, hdz] at h2
      have := score_lt (1 / v.magnitude) v.z v.x himp hx
      linarith
    have keyneg2 : ¬(1 - |v.normalized.dot ⟨0, 1, 0⟩| ≤ 1 - |v.normalized.dot ⟨0, 0, 1⟩|) := by
      intro h2
      rw [hdy, hdz] at h2
      have := score_lt (1 / v.magnitude) v.z v.y himp hy
      linarith
    exact ⟨by rw [snap_select_z v false keyneg1 keyneg2]
              exact snap_tail_not_mirrored _ v.z (1 / v.magnitude) _ hdz himp hvz,
           by rw [snap_select_z v true keyneg1 keyneg2]
              exact snap_tail_mirrored _ v.z (1 / v.magnitude) _ hdz himp hvz⟩
  · rintro ⟨hxy, hz⟩ mirrored
    have key1 : 1 - |v.normalized.dot ⟨1, 0, 0⟩| ≤ 1 - |v.normalized.dot ⟨0, 1, 0⟩| := by
      rw [hdx, hdy]; exact score_le _ _ _ him0 (le_of_eq hxy)
    have key2 : 1 - |v.normalized.dot ⟨1, 0, 0⟩| ≤ 1 - |v.normalized.dot ⟨0, 0, 1⟩| := by
      rw [hdx, hdz]; exact score_le _ _ _ him0 hz
    rw [snap_select_x v mirrored key1 key2]
    exact snap_tail_any _ mirrored _
  · rintro ⟨hx, hzy⟩ mirrored
    have hvy : v.y ≠ 0 := by
      intro h0
      rw [h0, abs_zero] at hx
      exact absurd hx (not_lt.mpr (abs_nonneg _))
    have himp : 0 < 1 / v.magnitude := hmp v.y hvy (Or.inr (Or.inl rfl))
    have keyneg : ¬(1 - |v.normalized.dot ⟨1, 0, 0⟩| ≤ 1 - |v.normalized.dot ⟨0, 1, 0⟩| ∧
        1 - |v.normalized.dot ⟨1, 0, 0⟩| ≤ 1 - |v.normalized.dot ⟨0, 0, 1⟩|) := by
      rintro ⟨h1, _⟩
      rw [hdx, hdy] at h1
      have := score_lt (1 / v.magnitude) v.y v.x himp hx
      linarith
    have key3 : 1 - |v.normalized.dot ⟨0, 1, 0⟩| ≤ 1 - |v.normalized.dot ⟨0, 0, 1⟩| := by
      rw [hdy, hdz]; exact score_le _ _ _ him0 (le_of_eq hzy)
    rw [snap_select_y v mirrored keyneg key3]
    exact snap_tail_any _ mirrored _
  · rintro ⟨hzx, hy⟩ mirrored
    have key1 : 1 - |v.normalized.dot ⟨1, 0, 0⟩| ≤ 1 - |v.normalized.dot ⟨0, 1, 0⟩| := by
      rw [hdx, hdy]; exact score_le _ _ _ him0 (le_of_lt hy)
    have key2 : 1 - |v.normalized.dot ⟨1, 0, 0⟩| ≤ 1 - |v.normalized.dot ⟨0, 0, 1⟩| := by
      rw [hdx, hdz]; exact score_le _ _ _ him0 (le_of_eq hzx)
    rw [snap_select_x v mirrored key1 key2]
    exact snap_tail_any _ mirrored _

/-!  ## Claim C7: face winding  -/

/-- Reading just past an appended list returns the appended element. -/
theorem getD_append_length {α : Type} (l : List α) (a d : α) :
    (l ++ [a]).getD l.length d = a := by
  rw [List.getD_append_right l [a] d l.length (le_refl _)]
  simp

/-- C7: `build_face` appends the four cell-corner vertices
`P1, P1+upEdge, P1+rightEdge+upEdge, P1+rightEdge` and builds the quad with
winding `(P1, P4, P3, P2)` when the signs of the cell edges agree with the
painting basis (both dot products positive or both non-positive), and
`(P1, P2, P3, P4)` otherwise. -/
theorem c7_build_face_winding (matrix_world : Affine) (bm : BMesh)
    (position x_vector y_vector up_vector right_vector : Vec3) :
    (build_face matrix_world bm position x_vector y_vector up_vector
        right_vector).1.verts =
      bm.verts ++
        [matrix_world.inverted.apply position,
         matrix_world.inverted.apply position + y_vector,
         matrix_world.inverted.apply position + x_vector + y_vector,
         matrix_world.inverted.apply position + x_vector] ∧
    (build_face matrix_world bm position x_vector y_vector up_vector
        right_vector).2 = bm.faces.length ∧
    ((0 < right_vector.dot x_vector ∧ 0 < up_vector.dot y_vector) ∨
        (right_vector.dot x_vector ≤ 0 ∧ up_vector.dot y_vector ≤ 0) →
      ((build_face matrix_world bm position x_vector y_vector up_vector
            right_vector).1.faces.getD bm.faces.length defaultFace).loops.map
          Loop.vert =
        [bm.verts.length, bm.verts.length + 3, bm.verts.length + 2,
         bm.verts.length + 1]) ∧
    ((0 < right_vector.dot x_vector ∧ up_vector.dot y_vector ≤ 0) ∨
        (right_vector.dot x_vector ≤ 0 ∧ 0 < up_vector.dot y_vector) →
      ((build_face matrix_world bm position x_vector y_vector up_vector
            right_vector).1.faces.getD bm.faces.length defaultFace).loops.map
          Loop.vert =
        [bm.verts.length, bm.verts.length + 1, bm.verts.length + 2,
         bm.verts.length + 3]) := by
  refine ⟨rfl, rfl, ?_, ?_⟩
  · rintro (⟨h1, h2⟩ | ⟨h1, h2⟩)
    · have b1 : decide (right_vector.dot x_vector.normalized > 0) = true :=
        decide_eq_true ((Vec3.dot_normalized_pos_iff _ _).mpr h1)
      have b2 : decide (up_vector.dot y_vector.normalized > 0) = true :=
        decide_eq_true ((Vec3.dot_normalized_pos_iff _ _).mpr h2)
      simp [build_face, b1, b2, getD_append_length]
    · have b1 : decide (right_vector.dot x_vector.normalized > 0) = false :=
        decide_eq_false fun hp =>
          absurd ((Vec3.dot_normalized_pos_iff _ _).mp hp) (not_lt.mpr h1)
      have b2 : decide (up_vector.dot y_vector.normalized > 0) = false :=
        decide_eq_false fun hp =>
          absurd ((Vec3.dot_normalized_pos_iff _ _).mp hp) (not_lt.mpr h2)
      simp [build_face, b1, b2, getD_append_length]
  · rintro (⟨h1, h2⟩ | ⟨h1, h2⟩)
    · have b1 : decide (right_vector.dot x_vector.normalized > 0) = true :=
        decide_eq_true ((Vec3.dot_normalized_pos_iff _ _).mpr h1)
      have b2 : decide (up_vector.dot y_vector.normalized > 0) = false :=
        decide_eq_false fun hp =>
          absurd ((Vec3.dot_normalized_pos_iff _ _).mp hp) (not_lt.mpr h2)
      simp [build_face, b1, b2, getD_append_length]
    · have b1 : decide (right_vector.dot x_vector.normalized > 0) = false :=
        decide_eq_false fun hp =>
          absurd ((Vec3.dot_normalized_pos_iff _ _).mp hp) (not_lt.mpr h1)
      have b2 : decide (up_vector.dot y_vector.normalized > 0) = true :=
        decide_eq_true ((Vec3.dot_normalized_pos_iff _ _).mpr h2)
      simp [build_face, b1, b2, getD_append_length]

/-- C7 witness: the quadrant I case on a concrete mesh — edges `(1,0,0)` and
`(0,1,0)` agreeing with the painting basis produce the `(P1,P4,P3,P2)`
winding over the four appended vertices. -/
theorem c7_build_face_winding_witness :
    ((build_face Affine.idAffine quadMesh ⟨5, 5, 0⟩ ⟨1, 0, 0⟩ ⟨0, 1, 0⟩
          ⟨0, 1, 0⟩ ⟨1, 0, 0⟩).1.faces.getD quadMesh.faces.length
        defaultFace).loops.map Loop.vert = [4, 7, 6, 5] :=
  (c7_build_face_winding Affine.idAffine quadMesh ⟨5, 5, 0⟩ ⟨1, 0, 0⟩ ⟨0, 1, 0⟩
      ⟨0, 1, 0⟩ ⟨1, 0, 0⟩).2.2.1
    (Or.inl ⟨by norm_num [Vec3.dot], by norm_num [Vec3.dot]⟩)

/-- C5 witness: the unique-maximum clause applied to the direction
`(3, -1, 0)` for both mirror settings. -/
theorem c5_snap_vector_to_axis_witness :
    snap_vector_to_axis ⟨3, -1, 0⟩ false =
      (if (0 : ℚ) < 3 then ⟨1, 0, 0⟩ else -⟨1, 0, 0⟩) ∧
    snap_vector_to_axis ⟨3, -1, 0⟩ true =
      (if (0 : ℚ) < 3 then -⟨1, 0, 0⟩ else ⟨1, 0, 0⟩) :=
  (c5_snap_vector_to_axis ⟨3, -1, 0⟩).1 ⟨by norm_num, by norm_num⟩

/-!  ## Claim C1: the build-mode paint-over gate  -/

/-- C1 (amended): in build mode, when the mesh raycast hits a face whose
normal is aligned with the painting plane normal (`1 - dot` within `0.05`)
and whose hit point lies on the reference plane (perpendicular distance
below `0.05`), the orchestrator UV-maps the hit face, records the cursor
sample, and creates no new geometry. -/
theorem c1_aligned_hit_paints_over (s : ToolState) (ray_origin ray_vector : Vec3)
    (hit : RayHit)
    (hhit : raycast_object s.matrix_world s.tree ray_origin ray_vector = some hit)
    (hdot : |(get_current_grid_vectors s.scene).2.2.dot hit.normal - 1| < 1 / 20)
    (hcop : |distance_point_to_plane hit.location s.scene.cursor_location
        (get_current_grid_vectors s.scene).2.2| < 1 / 20) :
    (execute_build s ray_origin ray_vector).bmesh =
      (uv_map_face s.scene s.gridid (get_current_grid_vectors s.scene).1
        (get_current_grid_vectors s.scene).2.1
        ((s.scene.sprytile_grids.getD s.gridid defaultGrid).tile_selection_x,
         (s.scene.sprytile_grids.getD s.gridid defaultGrid).tile_selection_y)
        hit.face_index s.bmesh).1 ∧
    (execute_build s ray_origin ray_vector).virtual_cursor =
      add_virtual_cursor s.virtual_cursor hit.location ∧
    (execute_build s ray_origin ray_vector).bmesh.verts = s.bmesh.verts ∧
    (execute_build s ray_origin ray_vector).bmesh.faces.length =
      s.bmesh.faces.length := by
  have hmain : (execute_build s ray_origin ray_vector).bmesh =
      (uv_map_face s.scene s.gridid (get_current_grid_vectors s.scene).1
        (get_current_grid_vectors s.scene).2.1
        ((s.scene.sprytile_grids.getD s.gridid defaultGrid).tile_selection_x,
         (s.scene.sprytile_grids.getD s.gridid defaultGrid).tile_selection_y)
        hit.face_index s.bmesh).1 ∧
      (execute_build s ray_origin ray_vector).virtual_cursor =
        add_virtual_cursor s.virtual_cursor hit.location := by
    simp only [execute_build]
    rw [hhit]
    simp only []
    rw [if_pos ⟨hdot, hcop⟩]
    split
    · split <;> exact ⟨rfl, rfl⟩
    · exact ⟨rfl, rfl⟩
  refine ⟨hmain.1, hmain.2, ?_, ?_⟩
  · rw [hmain.1, uv_map_face_verts]
  · rw [hmain.1, uv_map_face_faces_length]

/-- C1 witness: the amended statement on the concrete aligned-hit state. -/
theorem c1_aligned_hit_paints_over_witness :
    (execute_build buildAlignedState rayO rayD).bmesh =
      (uv_map_face buildAlignedState.scene buildAlignedState.gridid
        (get_current_grid_vectors buildAlignedState.scene).1
        (get_current_grid_vectors buildAlignedState.scene).2.1
        ((buildAlignedState.scene.sprytile_grids.getD buildAlignedState.gridid
            defaultGrid).tile_selection_x,
         (buildAlignedState.scene.sprytile_grids.getD buildAlignedState.gridid
            defaultGrid).tile_selection_y)
        alignedHit.face_index buildAlignedState.bmesh).1 ∧
    (execute_build buildAlignedState rayO rayD).virtual_cursor =
      add_virtual_cursor buildAlignedState.virtual_cursor alignedHit.location ∧
    (execute_build buildAlignedState rayO rayD).bmesh.verts =
      buildAlignedState.bmesh.verts ∧
    (execute_build buildAlignedState rayO rayD).bmesh.faces.length =
      buildAlignedState.bmesh.faces.length :=
  c1_aligned_hit_paints_over buildAlignedState rayO rayD alignedHit
    (by norm_num [raycast_object, buildAlignedState, buildOppositeState, alignedHit,
      rayO, rayD, Affine.apply, Affine.inverted, Affine.idAffine, Mat3.mulVec,
      Mat3.inv, Mat3.det, Mat3.id3, Vec3.dot, Vec3.add_def, Vec3.sub_def,
      Vec3.neg_def, Vec3.zero_def])
    (by norm_num [get_current_grid_vectors, buildAlignedState, buildOppositeState,
      baseScene, paintData, alignedHit, Vec3.normalized, Vec3.magnitude, Vec3.dot,
      Vec3.cross, Vec3.smul_def, Vec3.zero_def])
    (by norm_num [get_current_grid_vectors, distance_point_to_plane,
      buildAlignedState, buildOppositeState, baseScene, paintData, alignedHit,
      Vec3.normalized, Vec3.magnitude, Vec3.dot, Vec3.cross, Vec3.smul_def,
      Vec3.sub_def, Vec3.zero_def])

/-- C1 counterexample: a build-mode event whose mesh hit has its normal
exactly opposite the painting plane normal, with the hit point exactly on
the reference plane (distance `0`), does not take the paint-over path: the
alignment check `|dot - 1| < 0.05` fails at `dot = -1`, so the orchestrator
synthesizes a new quad — four new vertices and one new face. -/
theorem c1_counterexample_opposite_normal_builds :
    raycast_object buildOppositeState.matrix_world buildOppositeState.tree
      rayO rayD = some oppositeHit ∧
    (get_current_grid_vectors buildOppositeState.scene).2.2 = ⟨0, 0, 1⟩ ∧
    oppositeHit.normal = -(get_current_grid_vectors buildOppositeState.scene).2.2 ∧
    distance_point_to_plane oppositeHit.location
      buildOppositeState.scene.cursor_location
      (get_current_grid_vectors buildOppositeState.scene).2.2 = 0 ∧
    buildOppositeState.bmesh.verts.length = 4 ∧
    (execute_build buildOppositeState rayO rayD).bmesh.verts.length = 8 ∧
    buildOppositeState.bmesh.faces.length = 1 ∧
    (execute_build buildOppositeState rayO rayD).bmesh.faces.length = 2 := by
  have hgeom : (execute_build buildOppositeState rayO rayD).bmesh.verts.length = 8 ∧
      (execute_build buildOppositeState rayO rayD).bmesh.faces.length = 2 := by
    norm_num [execute_build, execute_build_makeface, buildOppositeState, baseScene,
      paintData, texGrid, rayO, rayD, oppositeHit, quadMesh, defaultGrid,
      defaultFace, get_current_grid_vectors, raycast_object, raycast_grid,
      get_grid_pos, intersect_line_plane, distance_point_to_plane, build_face,
      uv_map_face, get_grid_texture, add_virtual_cursor, dequeAppend, flow_cursor,
      Affine.apply, Affine.inverted, Affine.idAffine, Mat3.mulVec, Mat3.inv,
      Mat3.det, Mat3.id3, abs_of_nonneg, abs_of_nonpos, Vec3.normalized,
      Vec3.magnitude, Vec3.dot, Vec3.cross, Vec3.sub_def, Vec3.add_def,
      Vec3.smul_def, Vec3.neg_def, Vec3.zero_def, List.getD, List.foldl]
  refine ⟨?_, ?_, ?_, ?_, rfl, hgeom.1, rfl, hgeom.2⟩
  · norm_num [raycast_object, buildOppositeState, oppositeHit, rayO, rayD,
      Affine.apply, Affine.inverted, Affine.idAffine, Mat3.mulVec, Mat3.inv,
      Mat3.det, Mat3.id3, Vec3.dot, Vec3.add_def, Vec3.sub_def, Vec3.neg_def,
      Vec3.zero_def]
  · norm_num [get_current_grid_vectors, buildOppositeState, baseScene, paintData,
      Vec3.normalized, Vec3.magnitude, Vec3.dot, Vec3.cross, Vec3.smul_def,
      Vec3.zero_def]
  · norm_num [get_current_grid_vectors, buildOppositeState, baseScene, paintData,
      oppositeHit, Vec3.normalized, Vec3.magnitude, Vec3.dot, Vec3.cross,
      Vec3.smul_def, Vec3.zero_def, Vec3.neg_def, Vec3.mk.injEq]
  · norm_num [get_current_grid_vectors, distance_point_to_plane,
      buildOppositeState, baseScene, paintData, oppositeHit, Vec3.normalized,
      Vec3.magnitude, Vec3.dot, Vec3.cross, Vec3.smul_def, Vec3.sub_def,
      Vec3.zero_def]

/-!  ## Claim C10: the raycast wrapper and the space of its results  -/

/-- C10: `raycast_object` returns the none-tuple exactly when the underlying
BVH ray cast reports no hit; on a hit it transforms only the hit location
back into world space while the returned normal and distance stay in the
object's local coordinate space; and the build orchestrator's paint-over
gate compares that local-space normal directly against the world-space
painting plane normal (and the world-space hit location against the
reference plane) — when the gate fails, the new-face path runs. -/
theorem c10_raycast_object_localness (s : ToolState)
    (ray_origin ray_direction : Vec3) :
    (raycast_object s.matrix_world s.tree ray_origin ray_direction = none ↔
      s.tree (s.matrix_world.inverted.apply ray_origin)
        (s.matrix_world.inverted.apply (ray_origin + ray_direction) -
          s.matrix_world.inverted.apply ray_origin) = none) ∧
    (∀ hit : RayHit,
      s.tree (s.matrix_world.inverted.apply ray_origin)
        (s.matrix_world.inverted.apply (ray_origin + ray_direction) -
          s.matrix_world.inverted.apply ray_origin) = some hit →
      raycast_object s.matrix_world s.tree ray_origin ray_direction =
        some ⟨s.matrix_world.apply hit.location, hit.normal, hit.face_index,
          hit.distance⟩) ∧
    (∀ hit : RayHit,
      raycast_object s.matrix_world s.tree ray_origin ray_direction = some hit →
      ¬(|(get_current_grid_vectors s.scene).2.2.dot hit.normal - 1| < 1 / 20 ∧
        |distance_point_to_plane hit.location s.scene.cursor_location
          (get_current_grid_vectors s.scene).2.2| < 1 / 20) →
      execute_build s ray_origin ray_direction =
        execute_build_makeface s
          ((s.scene.sprytile_grids.getD s.gridid defaultGrid).tile_selection_x,
           (s.scene.sprytile_grids.getD s.gridid defaultGrid).tile_selection_y)
          (get_current_grid_vectors s.scene).1
          (get_current_grid_vectors s.scene).2.1
          (get_current_grid_vectors s.scene).2.2 ray_origin ray_direction) := by
  refine ⟨?_, ?_, ?_⟩
  · cases h : s.tree (s.matrix_world.inverted.apply ray_origin)
        (s.matrix_world.inverted.apply (ray_origin + ray_direction) -
          s.matrix_world.inverted.apply ray_origin) <;>
      simp [raycast_object, h]
  · intro hit h
    simp [raycast_object, h]
  · intro hit hrc hneg
    simp only [execute_build]
    rw [hrc]
    simp only []
    rw [if_neg hneg]

/-- C10 witness: the on-hit clause applied to the concrete aligned-hit
state, whose constant BVH oracle reports `alignedHit` for every ray. -/
theorem c10_raycast_object_localness_witness :
    raycast_object buildAlignedState.matrix_world buildAlignedState.tree
      rayO rayD =
      some ⟨buildAlignedState.matrix_world.apply alignedHit.location,
        alignedHit.normal, alignedHit.face_index, alignedHit.distance⟩ :=
  (c10_raycast_object_localness buildAlignedState rayO rayD).2.1 alignedHit rfl
